import Mathlib

/-!
Shallow embedding of the SOAP sources `SO_properties.py` (class `SOProperties`)
and `halo_centres.py` (class `SOCatalogue`).

Python floats are modelled as exact rationals.  A `unyt` array is modelled as a
list of rationals together with the symbolic physical unit that unyt attaches
to the whole array; all input arrays are assumed to be given in one coherent
unit system, so unyt's implicit value conversions are identities and only the
unit tags are tracked.  `np.sqrt` is modelled by `Rat.sqrt` (exact on perfect
squares, nonnegative on nonnegative input).  Fallible code paths (KeyError on a
missing species key, `uconcatenate` of an empty list, NameError on an invalid
reference type) are modelled with `Except`.
-/

instance exceptDecEq {ε α : Type} [DecidableEq ε] [DecidableEq α] :
    DecidableEq (Except ε α) := fun x y =>
  match x, y with
  | .ok a, .ok b =>
    if h : a = b then isTrue (by rw [h]) else
      isFalse (fun hc => h (Except.ok.inj hc))
  | .error e, .error f =>
    if h : e = f then isTrue (by rw [h]) else
      isFalse (fun hc => h (Except.error.inj hc))
  | .ok _, .error _ => isFalse (fun hc => Except.noConfusion hc)
  | .error _, .ok _ => isFalse (fun hc => Except.noConfusion hc)

namespace SOAP

/-- A physical unit: exponents of the base dimensions length, mass, time and
temperature.  Models the unit tag that unyt attaches to an array. -/
structure SimUnit where
  length : ℤ
  mass : ℤ
  time : ℤ
  temp : ℤ
deriving DecidableEq, Repr

/-- The unit of the catalogue / coordinate arrays (a length, e.g. Mpc). -/
def mpcUnit : SimUnit := ⟨1, 0, 0, 0⟩

/-- The unit of the particle mass arrays (a mass, e.g. Msun). -/
def msunUnit : SimUnit := ⟨0, 1, 0, 0⟩

/-- The unit of the temperature arrays (K). -/
def kelvinUnit : SimUnit := ⟨0, 0, 0, 1⟩

/-- A 3-vector of rationals (one row of an (N,3) numpy array). -/
abbrev Vec3 := ℚ × ℚ × ℚ

/-- Componentwise subtraction of 3-vectors. -/
def vsub (a b : Vec3) : Vec3 := (a.1 - b.1, a.2.1 - b.2.1, a.2.2 - b.2.2)

/-- Componentwise addition of 3-vectors. -/
def vadd (a b : Vec3) : Vec3 := (a.1 + b.1, a.2.1 + b.2.1, a.2.2 + b.2.2)

/-- Scalar multiple of a 3-vector. -/
def vscale (c : ℚ) (v : Vec3) : Vec3 := (c * v.1, c * v.2.1, c * v.2.2)

/-- Componentwise division of a 3-vector by a scalar. -/
def vdivs (v : Vec3) (c : ℚ) : Vec3 := (v.1 / c, v.2.1 / c, v.2.2 / c)

/-- Sum of a list of 3-vectors. -/
def vsum (l : List Vec3) : Vec3 := l.foldr vadd (0, 0, 0)

/-- `np.sum(pos ** 2, axis=1)` for one row: the squared Euclidean norm. -/
def normSq (v : Vec3) : ℚ := v.1 ^ 2 + v.2.1 ^ 2 + v.2.2 ^ 2

/-- The largest `j ≤ k` with `j * j ≤ n` (and `0` when there is none), by
structural descent from `k`; a kernel-evaluable integer square root. -/
def sqrtBelow (n : ℕ) : ℕ → ℕ
  | 0 => 0
  | k + 1 => if (k + 1) * (k + 1) ≤ n then k + 1 else sqrtBelow n k

/-- A structurally recursive integer square root (proved equal to `Nat.sqrt`
in `natSqrt_eq` below). -/
def natSqrt (n : ℕ) : ℕ := sqrtBelow n n

theorem sqrtBelow_eq (n k : ℕ) : sqrtBelow n k = min k (Nat.sqrt n) := by
  induction k with
  | zero => simp [sqrtBelow]
  | succ k ih =>
    unfold sqrtBelow
    rcases le_or_lt ((k + 1) * (k + 1)) n with h | h
    · rw [if_pos h, min_eq_left (Nat.le_sqrt.mpr h)]
    · have hlt : Nat.sqrt n < k + 1 := Nat.sqrt_lt.mpr h
      rw [if_neg (not_le.mpr h), ih]
      omega

theorem natSqrt_eq (n : ℕ) : natSqrt n = Nat.sqrt n := by
  rw [natSqrt, sqrtBelow_eq, min_eq_right (Nat.sqrt_le_self n)]

/-- Model of `np.sqrt` on our rational stand-in for floats: the rational
square root (exact on perfect squares, nonnegative), in a kernel-evaluable
form; `npSqrt_eq_sqrt` identifies it with the library's `Rat.sqrt`. -/
def npSqrt (q : ℚ) : ℚ := mkRat (natSqrt q.num.toNat) (natSqrt q.den)

theorem npSqrt_eq_sqrt (q : ℚ) : npSqrt q = Rat.sqrt q := by
  rw [npSqrt, Rat.sqrt, natSqrt_eq, natSqrt_eq, Int.sqrt]

/-- A 1-d unyt array: values plus the array's unit tag. -/
structure UArr where
  vals : List ℚ
  unit : SimUnit
deriving DecidableEq, Repr

/-- An (N,3) unyt array: rows plus the array's unit tag. -/
structure VArr where
  vals : List Vec3
  unit : SimUnit
deriving DecidableEq, Repr

/-- A unyt scalar: value plus unit tag. -/
structure UVal where
  val : ℚ
  unit : SimUnit
deriving DecidableEq, Repr

/-- A unyt 3-vector: value plus unit tag. -/
structure VVal where
  val : Vec3
  unit : SimUnit
deriving DecidableEq, Repr

/-- `data["PartType0"]`: the gas particle table (fields listed in
`SOProperties.particle_properties`). -/
structure GasData where
  coordinates : VArr
  masses : UArr
  velocities : VArr
  temperatures : UArr
  xrayLuminosities : UArr
  xrayPhotonLuminosities : UArr
  comptonYParameters : UArr
deriving DecidableEq, Repr

/-- `data["PartType1"]`: the dark matter particle table. -/
structure DMData where
  coordinates : VArr
  masses : UArr
  velocities : VArr
deriving DecidableEq, Repr

/-- `data["PartType4"]`: the star particle table. -/
structure StarData where
  coordinates : VArr
  masses : UArr
  initialMasses : UArr
  velocities : VArr
deriving DecidableEq, Repr

/-- `data["PartType5"]`: the black hole particle table. -/
structure BHData where
  coordinates : VArr
  dynamicalMasses : UArr
  subgridMasses : UArr
  velocities : VArr
deriving DecidableEq, Repr

/-- The `data` mapping passed to `SOProperties.calculate`: a species key that
is absent from the mapping is modelled by `none` (per the source comment,
species with no particles in the snapshot have no entry in `data`). -/
structure PartData where
  gas : Option GasData
  dm : Option DMData
  star : Option StarData
  bh : Option BHData
deriving DecidableEq, Repr

/- ------------------------------------------------------------------
   halo_centres.py, SOCatalogue.__init__, lines 80-102:
   periodic distance, search radius and read radius per halo.
   ------------------------------------------------------------------ -/

/-- One axis of the periodic wrap, `halo_centres.py` lines 89-91: the absolute
coordinate difference `d` is replaced by `boxsize - d` when it exceeds half the
box. -/
def wrapAxis (boxsize d : ℚ) : ℚ := if d > boxsize / 2 then boxsize - d else d

/-- `halo_centres.py` lines 88-92: distance from centre of potential to centre
of mass, taking the periodic box into account (per-axis absolute difference,
wrapped, then the Euclidean norm). -/
def periodicDist (boxsize : ℚ) (cofp cofm : Vec3) : ℚ :=
  let d1 := wrapAxis boxsize |cofp.1 - cofm.1|
  let d2 := wrapAxis boxsize |cofp.2.1 - cofm.2.1|
  let d3 := wrapAxis boxsize |cofp.2.2 - cofm.2.2|
  npSqrt (d1 ^ 2 + d2 ^ 2 + d3 ^ 2)

/-- `halo_centres.py` line 95: `local_search_radius = local_r_size*1.01 + dist`. -/
def searchRadius (boxsize : ℚ) (cofm cofp : Vec3) (r_size : ℚ) : ℚ :=
  r_size * (101 / 100) + periodicDist boxsize cofp cofm

/-- `halo_centres.py` line 100: `min_radius = 5.0*unyt.Mpc` (arrays are in
comoving Mpc at this point). -/
def minReadRadius : ℚ := 5

/-- `halo_centres.py` lines 99-102: the read radius is the search radius
raised to the fixed floor `min_radius` when smaller. -/
def readRadius (sr : ℚ) : ℚ := if sr < minReadRadius then minReadRadius else sr

/- ------------------------------------------------------------------
   SO_properties.py, SOProperties.__init__, lines 35-47.
   ------------------------------------------------------------------ -/

/-- The state of a constructed `SOProperties` object.  The fields
`critical_density` and `mean_density` are inherited from the `HaloProperty`
base class (set up from `cellgrid`); that class is not among the sources, so
they are modelled from the spec as the reference densities at the halo's
epoch, in the coherent unit system. -/
structure SOConfig where
  type : String
  mean_density_multiple : ℕ
  critical_density_multiple : ℕ
  name : String
  critical_density : ℚ
  mean_density : ℚ
deriving DecidableEq, Repr

/-- `SOProperties.__init__` (lines 35-47): rejects any reference type other
than "mean" or "crit" with an `AttributeError`, otherwise stores the
multiple under both names and builds the calculation name `SO_%d_%s`.
`SOval` is modelled as a natural number (the source formats it with `%d`
and `:.0f`). -/
def initSO (SOval : ℕ) (type : String) (critical_density mean_density : ℚ) :
    Except String SOConfig :=
  if type = "mean" ∨ type = "crit" then
    .ok ⟨type, SOval, SOval, "SO_" ++ toString SOval ++ "_" ++ type,
         critical_density, mean_density⟩
  else
    .error ("Unknown SO type: " ++ type ++ "!")

/- ------------------------------------------------------------------
   SO_properties.py, SOProperties.calculate, lines 49-234.
   Per-species field arrays are assumed to have equal length (one row per
   particle), as in the snapshot format; rows are paired positionally.
   ------------------------------------------------------------------ -/

/-- One particle of the concatenated arrays built in lines 63-87: its mass
(from the species' mass field), its radius about the halo centre, its centred
position, its velocity and its species tag (the `types` entry). -/
structure PRow where
  mass : ℚ
  radius : ℚ
  pos : Vec3
  vel : Vec3
  ptype : String
deriving DecidableEq, Repr

/-- Positional pairing of three equal-length arrays (coordinates, masses,
velocities) of one species. -/
def rows3 : List Vec3 → List ℚ → List Vec3 → List (Vec3 × ℚ × Vec3)
  | c :: cs, m :: ms, v :: vs => (c, m, v) :: rows3 cs ms vs
  | _, _, _ => []

/-- Lines 72-81 for one species: centre the coordinates on the halo centre,
compute each particle's radius `np.sqrt(np.sum(pos**2, axis=1))`, and tag the
rows with the species name. -/
def typeRows (centre : Vec3) (pt : String) (coords : List Vec3) (masses : List ℚ)
    (vels : List Vec3) : List PRow :=
  (rows3 coords masses vels).map (fun t =>
    let p := vsub t.1 centre
    ⟨t.2.1, npSqrt (normSq p), p, t.2.2, pt⟩)

/-- The per-species view used by the concatenation loop: species name,
coordinate array, the array named by `mass_dataset`, and velocities. -/
structure TypeArrays where
  ptype : String
  coordinates : VArr
  massArr : UArr
  velocities : VArr
deriving DecidableEq, Repr

/-- The species present in `data`, in the fixed key order PartType0, PartType1,
PartType4, PartType5 (the insertion order of `particle_properties`, which the
snapshot reader follows).  The mass field of each species is chosen by
`mass_dataset`.  Modelled from the spec: the module `dataset_names` is not
among the sources; per the spec, the species-specific mass field is `Masses`
for gas, dark matter and stars and the dynamical mass field for black holes. -/
def presentTypes (d : PartData) : List TypeArrays :=
  (match d.gas with
   | some g => [⟨"PartType0", g.coordinates, g.masses, g.velocities⟩]
   | none => [])
  ++ (match d.dm with
      | some m => [⟨"PartType1", m.coordinates, m.masses, m.velocities⟩]
      | none => [])
  ++ (match d.star with
      | some s => [⟨"PartType4", s.coordinates, s.masses, s.velocities⟩]
      | none => [])
  ++ (match d.bh with
      | some b => [⟨"PartType5", b.coordinates, b.dynamicalMasses, b.velocities⟩]
      | none => [])

/-- Lines 67-87: the concatenated per-particle rows of all species present. -/
def allRows (centre : Vec3) (d : PartData) : List PRow :=
  ((presentTypes d).map (fun t =>
    typeRows centre t.ptype t.coordinates.vals t.massArr.vals t.velocities.vals)).flatten

/-- The sort key of line 90 (`np.argsort(radius)`): ascending radius. -/
def rowLE (a b : PRow) : Prop := a.radius ≤ b.radius

instance rowLEDec : DecidableRel rowLE := fun a b =>
  inferInstanceAs (Decidable (a.radius ≤ b.radius))

/-- Lines 90-92: the rows reordered by ascending radius.  `np.argsort` returns
some ascending-radius permutation; the model fixes the stable one. -/
def sortedRows (centre : Vec3) (d : PartData) : List PRow :=
  List.insertionSort rowLE (allRows centre d)

/-- `np.cumsum`: entry `i` is the sum of the first `i+1` entries (the float64
accumulation of line 92 is modelled exactly by rational arithmetic). -/
def cumsum (l : List ℚ) : List ℚ :=
  (List.range l.length).map (fun i => (l.take (i + 1)).sum)

/-- Lines 96-98: the length of the leading run of exactly-zero entries. -/
def skipZeros : List ℚ → ℕ
  | [] => 0
  | r :: rest => if r = 0 then skipZeros rest + 1 else 0

/-- `radius[order]` of line 91. -/
def orderedRadiusAll (centre : Vec3) (d : PartData) : List ℚ :=
  (sortedRows centre d).map PRow.radius

/-- `np.cumsum(mass[order])` of line 92. -/
def cumMassAll (centre : Vec3) (d : PartData) : List ℚ :=
  cumsum ((sortedRows centre d).map PRow.mass)

/-- `nskip` of lines 96-98. -/
def nskipOf (centre : Vec3) (d : PartData) : ℕ :=
  skipZeros (orderedRadiusAll centre d)

/-- `ordered_radius` after the zero-radius drop of line 99. -/
def soOrderedRadius (centre : Vec3) (d : PartData) : List ℚ :=
  (orderedRadiusAll centre d).drop (nskipOf centre d)

/-- `cumulative_mass` after the drop of line 100. -/
def soCumMass (centre : Vec3) (d : PartData) : List ℚ :=
  (cumMassAll centre d).drop (nskipOf centre d)

/-- The IEEE-754 double closest to pi: the exact rational value of `np.pi`. -/
def piQ : ℚ := 884279719003555 / 281474976710656

/-- Line 102: `density = cumulative_mass / (4.0 / 3.0 * np.pi * ordered_radius ** 3)`. -/
def soDensity (centre : Vec3) (d : PartData) : List ℚ :=
  List.zipWith (fun m r => m / (4 / 3 * piQ * r ^ 3))
    (soCumMass centre d) (soOrderedRadius centre d)

/-- Lines 104-111: the reference density (the stored multiple times the
critical or the mean density, by the configured type). -/
def referenceDensity (cfg : SOConfig) : ℚ :=
  if cfg.type = "crit" then (cfg.critical_density_multiple : ℚ) * cfg.critical_density
  else (cfg.mean_density_multiple : ℚ) * cfg.mean_density

/-- Lines 106 and 110: the overdensity name `%d_crit` / `%d_mean`. -/
def soName (cfg : SOConfig) : String :=
  if cfg.type = "crit" then toString cfg.critical_density_multiple ++ "_crit"
  else toString cfg.mean_density_multiple ++ "_mean"

/-- Lines 107 and 111: the human-readable label. -/
def soLabel (cfg : SOConfig) : String :=
  if cfg.type = "crit" then
    "within which the density is " ++ toString cfg.critical_density_multiple ++
      " times the critical value"
  else
    "within which the density is " ++ toString cfg.mean_density_multiple ++
      " times the mean value"

/-- `np.argmax` of a boolean array: the index of its first True entry, and 0
when no entry is True. -/
def argmaxBool (l : List Bool) : ℕ := if l.any id then l.findIdx id else 0

/-- Lines 113-124: the threshold crossing search, returning the values of
`(rSO, mSO)`.  When some density entry exceeds the reference, `i` is
`np.argmax(density < reference_density)` and the result reads the profile at
`i`; otherwise both values are zero. -/
def soRadiusMass (cfg : SOConfig) (centre : Vec3) (d : PartData) : ℚ × ℚ :=
  let density := soDensity centre d
  if 0 < (soOrderedRadius centre d).length ∧
      density.any (fun dd => decide (referenceDensity cfg < dd)) then
    let i := argmaxBool (density.map (fun dd => decide (dd < referenceDensity cfg)))
    ((soOrderedRadius centre d).getD i 0, (soCumMass centre d).getD i 0)
  else
    (0, 0)

/-- Boolean-mask indexing `arr[mask]` of numpy, for equal-length operands. -/
def maskFilter {α : Type} (xs : List α) (mask : List Bool) : List α :=
  ((xs.zip mask).filter (fun p => p.2)).map (fun p => p.1)

/-- The radii of one species' particles about the halo centre, in array order:
`radius[types == ptype]` of lines 131-133 (concatenation keeps each species'
block in its original order). -/
def radiiOf (centre : Vec3) (coords : List Vec3) : List ℚ :=
  coords.map (fun c => npSqrt (normSq (vsub c centre)))

/-- The value of `rSO`. -/
def rSOval (cfg : SOConfig) (centre : Vec3) (d : PartData) : ℚ :=
  (soRadiusMass cfg centre d).1

/-- The value of `mSO`. -/
def mSOval (cfg : SOConfig) (centre : Vec3) (d : PartData) : ℚ :=
  (soRadiusMass cfg centre d).2

/-- Lines 135-139: the concatenated rows restricted by
`all_selection = radius < rSO`. -/
def insideRows (cfg : SOConfig) (centre : Vec3) (d : PartData) : List PRow :=
  (allRows centre d).filter (fun p => decide (p.radius < rSOval cfg centre d))

/-- `mass[types == pt]` after the `all_selection` filter (lines 144-148): the
masses of one species' particles strictly inside the SO radius. -/
def speciesMassesIn (cfg : SOConfig) (centre : Vec3) (d : PartData) (pt : String) :
    List ℚ :=
  ((insideRows cfg centre d).filter (fun p => p.ptype == pt)).map PRow.mass

/-- One species' mass aggregate (`MgasSO`, `MdmSO`, `MstarSO`, `MBHdynSO`). -/
def speciesMassIn (cfg : SOConfig) (centre : Vec3) (d : PartData) (pt : String) : ℚ :=
  (speciesMassesIn cfg centre d pt).sum

/-- Line 131: `gas_selection = radius[types == "PartType0"] < rSO`. -/
def gasSelOf (cfg : SOConfig) (centre : Vec3) (d : PartData) (g : GasData) :
    List Bool :=
  (radiiOf centre g.coordinates.vals).map (fun r => decide (r < rSOval cfg centre d))

/-- Line 150: `gas_temperatures = Tgas[gas_selection]`. -/
def gasTempsIn (cfg : SOConfig) (centre : Vec3) (d : PartData) (g : GasData) :
    List ℚ :=
  maskFilter g.temperatures.vals (gasSelOf cfg centre d g)

/-- Line 151: `Tgas_selection = gas_temperatures > 1.0e5 * unyt.K` (the
temperature array is given in K). -/
def hotSelOf (cfg : SOConfig) (centre : Vec3) (d : PartData) (g : GasData) :
    List Bool :=
  (gasTempsIn cfg centre d g).map (fun t => decide (100000 < t))

/-- A value stored in the `halo_result` dict: a unyt scalar or a unyt
3-vector. -/
inductive ResVal where
  | scal : UVal → ResVal
  | vec : VVal → ResVal
deriving DecidableEq, Repr

/-- One `halo_result` entry: the value and its description string. -/
structure ResEntry where
  val : ResVal
  desc : String
deriving DecidableEq, Repr

/-- The `halo_result` dict, as an association list.  `List.lookup` gives the
dict's key lookup. -/
abbrev ResDict := List (String × ResEntry)

/-- `halo_result.update(new)` of line 194: afterwards a key of `new` looks up
its new value and every other key its old value.  Prepending the new pairs
realises exactly this lookup behaviour. -/
def dictUpdate (d nd : ResDict) : ResDict := nd ++ d

/-- All quantities computed by one `calculate` call, before they are written
into `halo_result`. -/
structure CalcOut where
  soname : String
  label : String
  rSO : UVal
  mSO : UVal
  comSO : VVal
  vcomSO : VVal
  MgasSO : UVal
  MdmSO : UVal
  MstarSO : UVal
  MBHdynSO : UVal
  MstarinitSO : UVal
  MBHsubSO : UVal
  MhotgasSO : UVal
  TgasSO : UVal
  XraylumSO : UVal
  XrayphlumSO : UVal
  compYSO : UVal
deriving DecidableEq, Repr

/-- The fifteen key/value/description pairs written by lines 194-234, in
source order. -/
def resultPairs (o : CalcOut) : ResDict :=
  [("r_" ++ o.soname, ⟨.scal o.rSO, "Radius " ++ o.label⟩),
   ("m_" ++ o.soname, ⟨.scal o.mSO, "Mass within a sphere " ++ o.label⟩),
   ("com_" ++ o.soname, ⟨.vec o.comSO, "Centre of mass within a sphere " ++ o.label⟩),
   ("vcom_" ++ o.soname,
     ⟨.vec o.vcomSO, "Centre of mass velocity within a sphere " ++ o.label⟩),
   ("Mgas_" ++ o.soname, ⟨.scal o.MgasSO, "Total gas mass within a sphere " ++ o.label⟩),
   ("Mdm_" ++ o.soname, ⟨.scal o.MdmSO, "Total DM mass within a sphere " ++ o.label⟩),
   ("Mstar_" ++ o.soname,
     ⟨.scal o.MstarSO, "Total stellar mass within a sphere " ++ o.label⟩),
   ("MBHdyn_" ++ o.soname,
     ⟨.scal o.MBHdynSO, "Total dynamical BH mass within a sphere " ++ o.label⟩),
   ("Mstarinit_" ++ o.soname,
     ⟨.scal o.MstarinitSO, "Total initial stellar mass with a sphere " ++ o.label⟩),
   ("MBHsub_" ++ o.soname,
     ⟨.scal o.MBHsubSO, "Total sub-grid BH mass within a sphere " ++ o.label⟩),
   ("Mhotgas_" ++ o.soname,
     ⟨.scal o.MhotgasSO, "Total mass of gas with T > 1e5 K within a sphere " ++ o.label⟩),
   ("Tgas_" ++ o.soname,
     ⟨.scal o.TgasSO,
      "Mass-weighted average temperature of gas with T > 1e5 K within a sphere " ++ o.label⟩),
   ("Xraylum_" ++ o.soname,
     ⟨.scal o.XraylumSO, "Total Xray luminosity within a sphere " ++ o.label⟩),
   ("Xrayphlum_" ++ o.soname,
     ⟨.scal o.XrayphlumSO, "Total Xray photon luminosity within a sphere " ++ o.label⟩),
   ("compY_" ++ o.soname, ⟨.scal o.compYSO, "Total Compton y within a sphere " ++ o.label⟩)]

/-- The fifteen result key names for a given overdensity name. -/
def resultKeys (soname : String) : List String :=
  ["r_" ++ soname, "m_" ++ soname, "com_" ++ soname, "vcom_" ++ soname,
   "Mgas_" ++ soname, "Mdm_" ++ soname, "Mstar_" ++ soname, "MBHdyn_" ++ soname,
   "Mstarinit_" ++ soname, "MBHsub_" ++ soname, "Mhotgas_" ++ soname,
   "Tgas_" ++ soname, "Xraylum_" ++ soname, "Xrayphlum_" ++ soname,
   "compY_" ++ soname]

/-- Lines 63-190 of `SOProperties.calculate`: everything up to the
`halo_result.update` call.  Failure paths, in source order: `uconcatenate` of
an empty list when no species key is present (line 82); a NameError when the
stored type is neither "crit" nor "mean" (line 114 would read the unbound
`reference_density`); a KeyError when "PartType0" is absent (line 126); and,
when `rSO > 0`, KeyErrors when "PartType4" or "PartType5" are absent
(lines 167-168).  Division by a zero `mSO` (line 141) follows the rational
convention; the source would produce non-finite floats there, a state no
claim depends on. -/
def calcQuants (cfg : SOConfig) (centre : Vec3) (d : PartData) :
    Except String CalcOut :=
  match presentTypes d with
  | [] => .error "unyt.uconcatenate: empty list"
  | t0 :: _ =>
    -- units of the concatenated arrays: unyt converts every operand to the
    -- first array's units
    let massUnit := t0.massArr.unit
    let lengthUnit := t0.coordinates.unit
    let velUnit := t0.velocities.unit
    if cfg.type = "crit" ∨ cfg.type = "mean" then
      let rm := soRadiusMass cfg centre d
      let rSO : UVal := ⟨rm.1, lengthUnit⟩
      let mSO : UVal := ⟨rm.2, massUnit⟩
      -- lines 126-129: unconditional access to the gas fields
      match d.gas with
      | none => .error "KeyError: PartType0"
      | some g =>
        if 0 < rm.1 then
          -- lines 131-133: per-species boolean selections
          let gasSel := gasSelOf cfg centre d g
          let starSel := (match d.star with
            | some s => radiiOf centre s.coordinates.vals
            | none => []).map (fun r => decide (r < rm.1))
          let bhSel := (match d.bh with
            | some b => radiiOf centre b.coordinates.vals
            | none => []).map (fun r => decide (r < rm.1))
          -- lines 135-139: filter the concatenated arrays
          let inside := insideRows cfg centre d
          -- lines 141-143
          let comSO : VVal :=
            ⟨vadd (vdivs (vsum (inside.map (fun p => vscale p.mass p.pos))) rm.2) centre,
             lengthUnit⟩
          let vcomSO : VVal :=
            ⟨vdivs (vsum (inside.map (fun p => vscale p.mass p.vel))) rm.2, velUnit⟩
          -- lines 144-148
          let gasMasses := speciesMassesIn cfg centre d "PartType0"
          let MgasSO : UVal := ⟨gasMasses.sum, massUnit⟩
          let MdmSO : UVal := ⟨speciesMassIn cfg centre d "PartType1", massUnit⟩
          let MstarSO : UVal := ⟨speciesMassIn cfg centre d "PartType4", massUnit⟩
          let MBHdynSO : UVal := ⟨speciesMassIn cfg centre d "PartType5", massUnit⟩
          -- lines 150-160: the hot gas subset (temperatures above 1e5 K)
          let gasTemps := gasTempsIn cfg centre d g
          let hotSel := hotSelOf cfg centre d g
          let hotMass := (maskFilter gasMasses hotSel).sum
          let MhotgasSO : UVal := ⟨hotMass, massUnit⟩
          let TgasSO : UVal :=
            if hotSel.any id then
              ⟨(((maskFilter gasTemps hotSel).zip (maskFilter gasMasses hotSel)).map
                  (fun p => p.1 * p.2)).sum / hotMass,
               g.temperatures.unit⟩
            else
              ⟨0, g.temperatures.unit⟩
          -- lines 162-165
          let XraylumSO : UVal :=
            ⟨(maskFilter g.xrayLuminosities.vals gasSel).sum, g.xrayLuminosities.unit⟩
          let XrayphlumSO : UVal :=
            ⟨(maskFilter g.xrayPhotonLuminosities.vals gasSel).sum,
             g.xrayPhotonLuminosities.unit⟩
          let compYSO : UVal :=
            ⟨(maskFilter g.comptonYParameters.vals gasSel).sum, g.comptonYParameters.unit⟩
          -- lines 167-168: unconditional access to the star and BH tables
          match d.star with
          | none => .error "KeyError: PartType4"
          | some s =>
            let MstarinitSO : UVal :=
              ⟨(maskFilter s.initialMasses.vals starSel).sum, s.initialMasses.unit⟩
            match d.bh with
            | none => .error "KeyError: PartType5"
            | some b =>
              let MBHsubSO : UVal :=
                ⟨(maskFilter b.subgridMasses.vals bhSel).sum, b.subgridMasses.unit⟩
              .ok ⟨soName cfg, soLabel cfg, rSO, mSO, comSO, vcomSO, MgasSO, MdmSO,
                   MstarSO, MBHdynSO, MstarinitSO, MBHsubSO, MhotgasSO, TgasSO,
                   XraylumSO, XrayphlumSO, compYSO⟩
        else
          -- lines 170-190: all-zero aggregates with the units of the
          -- corresponding input arrays
          .ok ⟨soName cfg, soLabel cfg, rSO, mSO,
               ⟨(0, 0, 0), lengthUnit⟩, ⟨(0, 0, 0), velUnit⟩,
               ⟨0, massUnit⟩, ⟨0, massUnit⟩, ⟨0, massUnit⟩, ⟨0, massUnit⟩,
               ⟨0, massUnit⟩, ⟨0, massUnit⟩, ⟨0, massUnit⟩,
               ⟨0, g.temperatures.unit⟩, ⟨0, g.xrayLuminosities.unit⟩,
               ⟨0, g.xrayPhotonLuminosities.unit⟩, ⟨0, g.comptonYParameters.unit⟩⟩
    else
      .error "NameError: reference_density is not defined"

/-- `SOProperties.calculate` (lines 49-234): computes all quantities and
merges the fifteen result pairs into `halo_result`.  The first argument of
the source's `input_halo` dict that is used is `cofp`, passed here directly
as the halo centre. -/
def calculate (cfg : SOConfig) (cofp : Vec3) (d : PartData) (haloResult : ResDict) :
    Except String ResDict :=
  (calcQuants cfg cofp d).map (fun o => dictUpdate haloResult (resultPairs o))

/- ------------------------------------------------------------------
   Helper lemmas.
   ------------------------------------------------------------------ -/

theorem appendRightCancel (p q n : String) (h : p ++ n = q ++ n) : p = q := by
  apply String.ext
  have hd : p.data ++ n.data = q.data ++ n.data := by
    rw [← String.data_append, ← String.data_append, h]
  exact List.append_cancel_right hd

theorem keyBeq (p q n : String) (h : p ≠ q) : (p ++ n == q ++ n) = false :=
  beq_eq_false_iff_ne.mpr (fun hc => h (appendRightCancel p q n hc))

theorem npSqrt_nonneg (q : ℚ) : 0 ≤ npSqrt q := by
  rw [npSqrt_eq_sqrt]
  exact Rat.sqrt_nonneg q

theorem wrapAxis_eq_min (L d : ℚ) : wrapAxis L d = min d (L - d) := by
  unfold wrapAxis
  rcases lt_or_le (L / 2) d with h | h
  · rw [if_pos h, min_eq_right]
    nlinarith
  · rw [if_neg (not_lt.mpr h), min_eq_left]
    nlinarith

instance : IsTotal PRow rowLE := ⟨fun a b => le_total a.radius b.radius⟩

instance : IsTrans PRow rowLE := ⟨fun _ _ _ hab hbc => le_trans hab hbc⟩

theorem allRows_radius_nonneg (centre : Vec3) (d : PartData) :
    ∀ p ∈ allRows centre d, 0 ≤ p.radius := by
  intro p hp
  unfold allRows at hp
  rw [List.mem_flatten] at hp
  obtain ⟨l, hl, hpl⟩ := hp
  rw [List.mem_map] at hl
  obtain ⟨t, -, rfl⟩ := hl
  unfold typeRows at hpl
  rw [List.mem_map] at hpl
  obtain ⟨u, -, rfl⟩ := hpl
  exact npSqrt_nonneg _

theorem sortedRows_radius_nonneg (centre : Vec3) (d : PartData) :
    ∀ p ∈ sortedRows centre d, 0 ≤ p.radius := by
  intro p hp
  apply allRows_radius_nonneg centre d
  exact ((List.perm_insertionSort rowLE (allRows centre d)).mem_iff).mp hp

theorem orderedRadiusAll_sorted (centre : Vec3) (d : PartData) :
    (orderedRadiusAll centre d).Sorted (· ≤ ·) := by
  unfold orderedRadiusAll
  rw [List.Sorted, List.pairwise_map]
  exact List.sorted_insertionSort rowLE (allRows centre d)

theorem drop_skipZeros_ne_zero (l : List ℚ) (hs : l.Sorted (· ≤ ·))
    (hn : ∀ x ∈ l, 0 ≤ x) : ∀ x ∈ l.drop (skipZeros l), x ≠ 0 := by
  induction l with
  | nil => simp
  | cons a t ih =>
    by_cases ha : a = 0
    · rw [show skipZeros (a :: t) = skipZeros t + 1 by rw [skipZeros, if_pos ha],
        List.drop_succ_cons]
      exact ih hs.of_cons (fun x hx => hn x (List.mem_cons_of_mem a hx))
    · rw [show skipZeros (a :: t) = 0 by rw [skipZeros, if_neg ha], List.drop_zero]
      intro x hx
      rcases List.mem_cons.mp hx with rfl | hxt
      · exact ha
      · have hax : a ≤ x := (List.rel_of_sorted_cons hs) x hxt
        have ha0 : 0 < a := lt_of_le_of_ne (hn a (List.mem_cons_self a t)) (Ne.symm ha)
        exact ne_of_gt (lt_of_lt_of_le ha0 hax)

theorem soOrderedRadius_pos (centre : Vec3) (d : PartData) :
    ∀ r ∈ soOrderedRadius centre d, 0 < r := by
  intro r hr
  have hne : r ≠ 0 := by
    apply drop_skipZeros_ne_zero (orderedRadiusAll centre d)
      (orderedRadiusAll_sorted centre d)
    · intro x hx
      rw [orderedRadiusAll, List.mem_map] at hx
      obtain ⟨p, hp, rfl⟩ := hx
      exact sortedRows_radius_nonneg centre d p hp
    · exact hr
  have hmem : r ∈ orderedRadiusAll centre d :=
    List.drop_subset _ _ hr
  have hge : 0 ≤ r := by
    rw [orderedRadiusAll, List.mem_map] at hmem
    obtain ⟨p, hp, rfl⟩ := hmem
    exact sortedRows_radius_nonneg centre d p hp
  exact lt_of_le_of_ne hge (Ne.symm hne)

theorem cumsum_length (l : List ℚ) : (cumsum l).length = l.length := by
  simp [cumsum]

theorem cumsum_getD (l : List ℚ) (i : ℕ) (h : i < l.length) :
    (cumsum l).getD i 0 = (l.take (i + 1)).sum := by
  rw [cumsum, List.getD_eq_getElem?_getD, List.getElem?_map, List.getElem?_range h]
  rfl

theorem skipZeros_le_length (l : List ℚ) : skipZeros l ≤ l.length := by
  induction l with
  | nil => simp [skipZeros]
  | cons a t ih =>
    rw [skipZeros]
    by_cases ha : a = 0
    · rw [if_pos ha]
      simpa using ih
    · rw [if_neg ha]
      simp

theorem soRadiusMass_of_not_exceed (cfg : SOConfig) (centre : Vec3) (d : PartData)
    (hno : ∀ x ∈ soDensity centre d, ¬ referenceDensity cfg < x) :
    soRadiusMass cfg centre d = (0, 0) := by
  unfold soRadiusMass
  rw [if_neg]
  rintro ⟨-, h2⟩
  rw [List.any_eq_true] at h2
  obtain ⟨x, hx, hlt⟩ := h2
  exact hno x hx (of_decide_eq_true hlt)

theorem presentTypes_gas (d : PartData) (g : GasData) (hg : d.gas = some g) :
    ∃ rest, presentTypes d =
      (⟨"PartType0", g.coordinates, g.masses, g.velocities⟩ : TypeArrays) :: rest := by
  unfold presentTypes
  rw [hg]
  exact ⟨_, rfl⟩

/-- The zero branch of `calcQuants`: with gas present and a valid type, if the
threshold search came back at radius zero, lines 170-190 produce the all-zero
record with the input arrays' units. -/
theorem calcQuants_noCross (cfg : SOConfig) (centre : Vec3) (d : PartData)
    (g : GasData) (hg : d.gas = some g)
    (ht : cfg.type = "crit" ∨ cfg.type = "mean")
    (h0 : ¬ 0 < (soRadiusMass cfg centre d).1) :
    calcQuants cfg centre d = .ok ⟨soName cfg, soLabel cfg,
      ⟨(soRadiusMass cfg centre d).1, g.coordinates.unit⟩,
      ⟨(soRadiusMass cfg centre d).2, g.masses.unit⟩,
      ⟨(0, 0, 0), g.coordinates.unit⟩, ⟨(0, 0, 0), g.velocities.unit⟩,
      ⟨0, g.masses.unit⟩, ⟨0, g.masses.unit⟩, ⟨0, g.masses.unit⟩, ⟨0, g.masses.unit⟩,
      ⟨0, g.masses.unit⟩, ⟨0, g.masses.unit⟩, ⟨0, g.masses.unit⟩,
      ⟨0, g.temperatures.unit⟩, ⟨0, g.xrayLuminosities.unit⟩,
      ⟨0, g.xrayPhotonLuminosities.unit⟩, ⟨0, g.comptonYParameters.unit⟩⟩ := by
  obtain ⟨rest, hpt⟩ := presentTypes_gas d g hg
  unfold calcQuants
  rw [hpt]
  dsimp only
  rw [if_pos ht, hg]
  dsimp only
  rw [if_neg h0]

theorem findIdx_map_comp {α β : Type} (f : α → β) (p : β → Bool) (l : List α) :
    (l.map f).findIdx p = l.findIdx (fun a => p (f a)) := by
  induction l with
  | nil => rfl
  | cons a t ih =>
    rw [List.map_cons, List.findIdx_cons, List.findIdx_cons, ih]

theorem soDensity_length_le (centre : Vec3) (d : PartData) :
    (soDensity centre d).length ≤ (soOrderedRadius centre d).length := by
  rw [soDensity, List.length_zipWith]
  omega

/-- The crossing branch of the threshold search (lines 113-118): when some
density entry exceeds the reference and some entry is below it,
`i = np.argmax(density < reference)` is the first index whose density is
below the reference, every earlier index is not below it, and the result
reads `ordered_radius[i]` and `cumulative_mass[i]`. -/
theorem soRadiusMass_cross (cfg : SOConfig) (centre : Vec3) (d : PartData)
    (hex : ∃ x ∈ soDensity centre d, referenceDensity cfg < x)
    (hbel : ∃ x ∈ soDensity centre d, x < referenceDensity cfg) :
    ∃ i, i < (soDensity centre d).length ∧
      (soDensity centre d).getD i 0 < referenceDensity cfg ∧
      (∀ j, j < i → ¬ (soDensity centre d).getD j 0 < referenceDensity cfg) ∧
      soRadiusMass cfg centre d =
        ((soOrderedRadius centre d).getD i 0, (soCumMass centre d).getD i 0) := by
  have hpex : ∃ x ∈ soDensity centre d,
      (fun dd => decide (dd < referenceDensity cfg)) x = true := by
    obtain ⟨x, hx, h⟩ := hbel
    exact ⟨x, hx, decide_eq_true h⟩
  have hilen := List.findIdx_lt_length_of_exists hpex
  refine ⟨(soDensity centre d).findIdx (fun dd => decide (dd < referenceDensity cfg)),
    hilen, ?_, ?_, ?_⟩
  · rw [List.getD_eq_getElem?_getD, List.getElem?_eq_getElem hilen]
    exact of_decide_eq_true (List.findIdx_getElem (w := hilen))
  · intro j hj
    have hjlen : j < (soDensity centre d).length := lt_trans hj hilen
    rw [List.getD_eq_getElem?_getD, List.getElem?_eq_getElem hjlen]
    have hfalse := List.not_of_lt_findIdx hj
    simpa using hfalse
  · have hany : (soDensity centre d).any
        (fun dd => decide (referenceDensity cfg < dd)) = true := by
      rw [List.any_eq_true]
      obtain ⟨x, hx, h⟩ := hex
      exact ⟨x, hx, decide_eq_true h⟩
    unfold soRadiusMass
    rw [if_pos]
    · unfold argmaxBool
      rw [if_pos]
      · rw [findIdx_map_comp]
        rfl
      · simp only [List.any_eq_true]
        obtain ⟨x, hx, h⟩ := hbel
        exact ⟨decide (x < referenceDensity cfg), List.mem_map_of_mem _ hx,
          by simpa using h⟩
    · refine ⟨?_, hany⟩
      have := soDensity_length_le centre d
      omega

/-- The aggregation branch of `calcQuants`: with gas, star and BH present, a
valid type and a positive SO radius, lines 130-168 produce the aggregate
record. -/
theorem calcQuants_cross (cfg : SOConfig) (centre : Vec3) (d : PartData)
    (g : GasData) (s : StarData) (b : BHData)
    (hg : d.gas = some g) (hs : d.star = some s) (hb : d.bh = some b)
    (ht : cfg.type = "crit" ∨ cfg.type = "mean")
    (h0 : 0 < (soRadiusMass cfg centre d).1) :
    calcQuants cfg centre d = .ok ⟨soName cfg, soLabel cfg,
      ⟨(soRadiusMass cfg centre d).1, g.coordinates.unit⟩,
      ⟨(soRadiusMass cfg centre d).2, g.masses.unit⟩,
      ⟨vadd (vdivs (vsum ((insideRows cfg centre d).map (fun p => vscale p.mass p.pos)))
          (soRadiusMass cfg centre d).2) centre, g.coordinates.unit⟩,
      ⟨vdivs (vsum ((insideRows cfg centre d).map (fun p => vscale p.mass p.vel)))
          (soRadiusMass cfg centre d).2, g.velocities.unit⟩,
      ⟨speciesMassIn cfg centre d "PartType0", g.masses.unit⟩,
      ⟨speciesMassIn cfg centre d "PartType1", g.masses.unit⟩,
      ⟨speciesMassIn cfg centre d "PartType4", g.masses.unit⟩,
      ⟨speciesMassIn cfg centre d "PartType5", g.masses.unit⟩,
      ⟨(maskFilter s.initialMasses.vals ((radiiOf centre s.coordinates.vals).map
          (fun r => decide (r < (soRadiusMass cfg centre d).1)))).sum,
        s.initialMasses.unit⟩,
      ⟨(maskFilter b.subgridMasses.vals ((radiiOf centre b.coordinates.vals).map
          (fun r => decide (r < (soRadiusMass cfg centre d).1)))).sum,
        b.subgridMasses.unit⟩,
      ⟨(maskFilter (speciesMassesIn cfg centre d "PartType0")
          (hotSelOf cfg centre d g)).sum, g.masses.unit⟩,
      (if (hotSelOf cfg centre d g).any id then
        ⟨(((maskFilter (gasTempsIn cfg centre d g) (hotSelOf cfg centre d g)).zip
            (maskFilter (speciesMassesIn cfg centre d "PartType0")
              (hotSelOf cfg centre d g))).map (fun p => p.1 * p.2)).sum /
          (maskFilter (speciesMassesIn cfg centre d "PartType0")
            (hotSelOf cfg centre d g)).sum, g.temperatures.unit⟩
      else ⟨0, g.temperatures.unit⟩),
      ⟨(maskFilter g.xrayLuminosities.vals (gasSelOf cfg centre d g)).sum,
        g.xrayLuminosities.unit⟩,
      ⟨(maskFilter g.xrayPhotonLuminosities.vals (gasSelOf cfg centre d g)).sum,
        g.xrayPhotonLuminosities.unit⟩,
      ⟨(maskFilter g.comptonYParameters.vals (gasSelOf cfg centre d g)).sum,
        g.comptonYParameters.unit⟩⟩ := by
  obtain ⟨rest, hpt⟩ := presentTypes_gas d g hg
  unfold calcQuants
  rw [hpt]
  dsimp only
  rw [if_pos ht, hg]
  dsimp only
  rw [if_pos h0, hs, hb]
  rfl

theorem lookupRes_r (o : CalcOut) (n : String) (h : o.soname = n) :
    (resultPairs o).lookup ("r_" ++ n) =
      some ⟨.scal o.rSO, "Radius " ++ o.label⟩ := by
  subst h
  simp [resultPairs]

theorem lookupRes_m (o : CalcOut) (n : String) (h : o.soname = n) :
    (resultPairs o).lookup ("m_" ++ n) =
      some ⟨.scal o.mSO, "Mass within a sphere " ++ o.label⟩ := by
  subst h
  simp [resultPairs, List.lookup_cons, keyBeq "m_" "r_" o.soname (by decide)]

theorem lookupRes_Tgas (o : CalcOut) (n : String) (h : o.soname = n) :
    (resultPairs o).lookup ("Tgas_" ++ n) =
      some ⟨.scal o.TgasSO,
        "Mass-weighted average temperature of gas with T > 1e5 K within a sphere " ++
          o.label⟩ := by
  subst h
  simp [resultPairs, List.lookup_cons,
    keyBeq "Tgas_" "r_" o.soname (by decide),
    keyBeq "Tgas_" "m_" o.soname (by decide),
    keyBeq "Tgas_" "com_" o.soname (by decide),
    keyBeq "Tgas_" "vcom_" o.soname (by decide),
    keyBeq "Tgas_" "Mgas_" o.soname (by decide),
    keyBeq "Tgas_" "Mdm_" o.soname (by decide),
    keyBeq "Tgas_" "Mstar_" o.soname (by decide),
    keyBeq "Tgas_" "MBHdyn_" o.soname (by decide),
    keyBeq "Tgas_" "Mstarinit_" o.soname (by decide),
    keyBeq "Tgas_" "MBHsub_" o.soname (by decide),
    keyBeq "Tgas_" "Mhotgas_" o.soname (by decide)]

theorem lookup_dictUpdate_of_mem (hr nd : ResDict) (k : String) (e : ResEntry)
    (h : nd.lookup k = some e) : (dictUpdate hr nd).lookup k = some e := by
  unfold dictUpdate
  rw [List.lookup_append, h]
  rfl

/- ------------------------------------------------------------------
   Claim theorems.
   ------------------------------------------------------------------ -/

/-- C9: `SOProperties` construction succeeds for reference type "mean" or
"crit", and any other type value raises the configuration error
`Unknown SO type` at construction time (in `__init__`, before any
`calculate` call can run). -/
theorem initSO_type_validation (SOval : ℕ) (ty : String) (cd md : ℚ) :
    (∃ cfg, initSO SOval "mean" cd md = .ok cfg) ∧
    (∃ cfg, initSO SOval "crit" cd md = .ok cfg) ∧
    (ty ≠ "mean" → ty ≠ "crit" →
      initSO SOval ty cd md = .error ("Unknown SO type: " ++ ty ++ "!")) := by
  refine ⟨⟨⟨"mean", SOval, SOval, "SO_" ++ toString SOval ++ "_" ++ "mean", cd, md⟩, ?_⟩,
         ⟨⟨"crit", SOval, SOval, "SO_" ++ toString SOval ++ "_" ++ "crit", cd, md⟩, ?_⟩,
         fun h1 h2 => ?_⟩
  · unfold initSO
    rw [if_pos (Or.inl rfl)]
  · unfold initSO
    rw [if_pos (Or.inr rfl)]
  · unfold initSO
    rw [if_neg]
    intro hc
    rcases hc with hc | hc
    · exact h1 hc
    · exact h2 hc

theorem initSO_type_validation_witness :
    (∃ cfg, initSO 200 "mean" 1 1 = .ok cfg) ∧
    initSO 200 "fof" 1 1 = .error ("Unknown SO type: " ++ "fof" ++ "!") :=
  ⟨(initSO_type_validation 200 "fof" 1 1).1,
   (initSO_type_validation 200 "fof" 1 1).2.2 (by decide) (by decide)⟩

/-- C5: for every halo with nonnegative catalogue size radius, the radii
computed by `SOCatalogue.__init__` satisfy
`read_radius ≥ search_radius ≥ 0` and `search_radius ≥ 1.01 × size_radius`. -/
theorem catalogue_radius_invariant (L : ℚ) (cofm cofp : Vec3) (r_size : ℚ)
    (h : 0 ≤ r_size) :
    searchRadius L cofm cofp r_size ≤ readRadius (searchRadius L cofm cofp r_size) ∧
    0 ≤ searchRadius L cofm cofp r_size ∧
    r_size * (101 / 100) ≤ searchRadius L cofm cofp r_size := by
  have hdist : 0 ≤ periodicDist L cofp cofm := npSqrt_nonneg _
  have hsz : r_size * (101 / 100) ≤ searchRadius L cofm cofp r_size := by
    unfold searchRadius
    linarith
  refine ⟨?_, by nlinarith, hsz⟩
  unfold readRadius
  rcases lt_or_le (searchRadius L cofm cofp r_size) minReadRadius with hlt | hle
  · rw [if_pos hlt]
    exact le_of_lt hlt
  · rw [if_neg (not_lt.mpr hle)]

unseal Rat.mul Rat.inv Rat.add Rat.sub in
theorem catalogue_radius_invariant_witness :
    (0 : ℚ) ≤ 3 ∧
    (searchRadius 100 (0, 0, 0) (1, 0, 0) 3 ≤
       readRadius (searchRadius 100 (0, 0, 0) (1, 0, 0) 3) ∧
     0 ≤ searchRadius 100 (0, 0, 0) (1, 0, 0) 3 ∧
     (3 : ℚ) * (101 / 100) ≤ searchRadius 100 (0, 0, 0) (1, 0, 0) 3) :=
  ⟨by decide, catalogue_radius_invariant 100 (0, 0, 0) (1, 0, 0) 3 (by decide)⟩

/-- C6: the per-axis wrapped coordinate difference computed by
`SOCatalogue.__init__` equals `min(d, L - d)` for the absolute raw
difference `d` on that axis, and the distance entering the search radius is
the Euclidean norm of the three wrapped differences; axis coordinates `0.1`
and `L - 0.1` give wrapped difference `0.2` for any box larger than `0.4`. -/
theorem periodic_wrap_is_min (L : ℚ) (p q : Vec3) :
    (periodicDist L p q =
      npSqrt ((min |p.1 - q.1| (L - |p.1 - q.1|)) ^ 2 +
        (min |p.2.1 - q.2.1| (L - |p.2.1 - q.2.1|)) ^ 2 +
        (min |p.2.2 - q.2.2| (L - |p.2.2 - q.2.2|)) ^ 2)) ∧
    (∀ a b : ℚ, wrapAxis L |a - b| = min |a - b| (L - |a - b|)) ∧
    (2 / 5 < L → wrapAxis L |1 / 10 - (L - 1 / 10)| = 1 / 5) := by
  refine ⟨?_, fun a b => wrapAxis_eq_min L |a - b|, fun hL => ?_⟩
  · unfold periodicDist
    rw [wrapAxis_eq_min, wrapAxis_eq_min, wrapAxis_eq_min]
  · have habs : |1 / 10 - (L - 1 / 10)| = L - 1 / 5 := by
      rw [abs_sub_comm, abs_of_nonneg (by linarith)]
      ring
    rw [habs]
    unfold wrapAxis
    rw [if_pos (by linarith)]
    ring

unseal Rat.mul Rat.inv Rat.add Rat.sub in
theorem periodic_wrap_is_min_witness :
    (2 / 5 : ℚ) < 1 ∧ wrapAxis 1 |1 / 10 - ((1 : ℚ) - 1 / 10)| = 1 / 5 :=
  ⟨by decide, (periodic_wrap_is_min 1 (0, 0, 0) (0, 0, 0)).2.2 (by decide)⟩

/-- C7: for every particle input, the density profile contains no zero-radius
entry — so the density denominator `4/3*pi*r^3` of line 102 is never zero —
while each retained cumulative-mass entry still contains the masses of the
dropped exactly-zero-radius particles: entry `j` of the retained profile is
the sum of the dropped leading masses plus the masses of sorted particles
`nskip .. nskip+j`, because the prefix sum of line 92 is taken before the
drop of lines 99-100. -/
theorem profile_excludes_zero_radius (centre : Vec3) (d : PartData) :
    (∀ r ∈ soOrderedRadius centre d, r ≠ 0 ∧ 4 / 3 * piQ * r ^ 3 ≠ 0) ∧
    (∀ j, j < (soCumMass centre d).length →
      (soCumMass centre d).getD j 0 =
        (((sortedRows centre d).map PRow.mass).take (nskipOf centre d)).sum +
          ((((sortedRows centre d).map PRow.mass).drop (nskipOf centre d)).take
            (j + 1)).sum) := by
  constructor
  · intro r hr
    have hpos : 0 < r := soOrderedRadius_pos centre d r hr
    refine ⟨ne_of_gt hpos, ?_⟩
    have hpi : (0 : ℚ) < piQ := by norm_num [piQ]
    exact mul_ne_zero (mul_ne_zero (by norm_num) (ne_of_gt hpi))
      (pow_ne_zero 3 (ne_of_gt hpos))
  · intro j hj
    have hlen : (soCumMass centre d).length =
        (cumsum ((sortedRows centre d).map PRow.mass)).length - nskipOf centre d := by
      rw [soCumMass, List.length_drop]
      rfl
    have hin : nskipOf centre d + j < ((sortedRows centre d).map PRow.mass).length := by
      rw [hlen, cumsum_length] at hj
      omega
    have hd : (soCumMass centre d).getD j 0 =
        (cumsum ((sortedRows centre d).map PRow.mass)).getD (nskipOf centre d + j) 0 := by
      rw [soCumMass, cumMassAll, List.getD_eq_getElem?_getD, List.getD_eq_getElem?_getD,
        List.getElem?_drop]
    rw [hd, cumsum_getD _ _ hin, show nskipOf centre d + j + 1 =
      nskipOf centre d + (j + 1) by omega, List.take_add, List.sum_append]

/-- C2: for every particle input (gas key present, so that line 126 does not
fail, and a valid reference type) in which no density-profile entry exceeds
the reference density — including the case of empty arrays — `calculate`
completes and reports SO radius and SO mass exactly zero, tagged with the
units of the radius array (the concatenated coordinates' unit) and of the
cumulative-mass array (the concatenated masses' unit) — the same units a
non-degenerate run attaches to these outputs. -/
theorem calculate_no_crossing_zero (cfg : SOConfig) (centre : Vec3) (d : PartData)
    (hr : ResDict) (g : GasData) (hg : d.gas = some g)
    (ht : cfg.type = "crit" ∨ cfg.type = "mean")
    (hno : ∀ x ∈ soDensity centre d, ¬ referenceDensity cfg < x) :
    ∃ hr', calculate cfg centre d hr = .ok hr' ∧
      hr'.lookup ("r_" ++ soName cfg) =
        some ⟨.scal ⟨0, g.coordinates.unit⟩, "Radius " ++ soLabel cfg⟩ ∧
      hr'.lookup ("m_" ++ soName cfg) =
        some ⟨.scal ⟨0, g.masses.unit⟩,
          "Mass within a sphere " ++ soLabel cfg⟩ := by
  have hrm : soRadiusMass cfg centre d = (0, 0) :=
    soRadiusMass_of_not_exceed cfg centre d hno
  have h0 : ¬ 0 < (soRadiusMass cfg centre d).1 := by
    rw [hrm]
    exact lt_irrefl 0
  have hq := calcQuants_noCross cfg centre d g hg ht h0
  rw [hrm] at hq
  refine ⟨dictUpdate hr (resultPairs ⟨soName cfg, soLabel cfg,
    ⟨0, g.coordinates.unit⟩, ⟨0, g.masses.unit⟩,
    ⟨(0, 0, 0), g.coordinates.unit⟩, ⟨(0, 0, 0), g.velocities.unit⟩,
    ⟨0, g.masses.unit⟩, ⟨0, g.masses.unit⟩, ⟨0, g.masses.unit⟩, ⟨0, g.masses.unit⟩,
    ⟨0, g.masses.unit⟩, ⟨0, g.masses.unit⟩, ⟨0, g.masses.unit⟩,
    ⟨0, g.temperatures.unit⟩, ⟨0, g.xrayLuminosities.unit⟩,
    ⟨0, g.xrayPhotonLuminosities.unit⟩, ⟨0, g.comptonYParameters.unit⟩⟩), ?_, ?_, ?_⟩
  · unfold calculate
    rw [hq]
    rfl
  · apply lookup_dictUpdate_of_mem
    exact lookupRes_r _ _ rfl
  · apply lookup_dictUpdate_of_mem
    exact lookupRes_m _ _ rfl

/-- C3: for every particle input on which `calculate` completes (gas, star
and BH keys present, valid type) whose density profile has an entry above
the reference and an entry below it, the reported SO radius is
`ordered_radius[i]` and the SO mass is `cumulative_mass[i]`, where `i` is
the first index of the zero-radius-filtered sorted profile at which
`density < reference` holds — every earlier index is not below the
reference, so later crossings of a non-monotonic profile are ignored. -/
theorem calculate_first_crossing (cfg : SOConfig) (centre : Vec3) (d : PartData)
    (hr : ResDict) (g : GasData) (s : StarData) (b : BHData)
    (hg : d.gas = some g) (hs : d.star = some s) (hb : d.bh = some b)
    (ht : cfg.type = "crit" ∨ cfg.type = "mean")
    (hex : ∃ x ∈ soDensity centre d, referenceDensity cfg < x)
    (hbel : ∃ x ∈ soDensity centre d, x < referenceDensity cfg) :
    ∃ i, i < (soDensity centre d).length ∧
      (soDensity centre d).getD i 0 < referenceDensity cfg ∧
      (∀ j, j < i → ¬ (soDensity centre d).getD j 0 < referenceDensity cfg) ∧
      ∃ hr', calculate cfg centre d hr = .ok hr' ∧
        hr'.lookup ("r_" ++ soName cfg) =
          some ⟨.scal ⟨(soOrderedRadius centre d).getD i 0, g.coordinates.unit⟩,
            "Radius " ++ soLabel cfg⟩ ∧
        hr'.lookup ("m_" ++ soName cfg) =
          some ⟨.scal ⟨(soCumMass centre d).getD i 0, g.masses.unit⟩,
            "Mass within a sphere " ++ soLabel cfg⟩ := by
  obtain ⟨i, hlen, hbelow, hmin, hrm⟩ := soRadiusMass_cross cfg centre d hex hbel
  have hpos : 0 < (soRadiusMass cfg centre d).1 := by
    rw [hrm]
    apply soOrderedRadius_pos centre d
    have hi : i < (soOrderedRadius centre d).length :=
      lt_of_lt_of_le hlen (soDensity_length_le centre d)
    rw [List.getD_eq_getElem?_getD, List.getElem?_eq_getElem hi]
    exact List.getElem_mem _
  have hq := calcQuants_cross cfg centre d g s b hg hs hb ht hpos
  rw [hrm] at hq
  refine ⟨i, hlen, hbelow, hmin, ?_⟩
  unfold calculate
  rw [hq]
  refine ⟨_, rfl, ?_, ?_⟩
  · apply lookup_dictUpdate_of_mem
    exact lookupRes_r _ _ rfl
  · apply lookup_dictUpdate_of_mem
    exact lookupRes_m _ _ rfl

theorem mem_allRows_ptype (centre : Vec3) (d : PartData) :
    ∀ p ∈ allRows centre d, p.ptype = "PartType0" ∨ p.ptype = "PartType1" ∨
      p.ptype = "PartType4" ∨ p.ptype = "PartType5" := by
  intro p hp
  unfold allRows at hp
  rw [List.mem_flatten] at hp
  obtain ⟨l, hl, hpl⟩ := hp
  rw [List.mem_map] at hl
  obtain ⟨t, ht, rfl⟩ := hl
  have hpt : p.ptype = t.ptype := by
    unfold typeRows at hpl
    rw [List.mem_map] at hpl
    obtain ⟨u, -, rfl⟩ := hpl
    rfl
  rw [hpt]
  simp only [presentTypes, List.mem_append] at ht
  rcases ht with (((h | h) | h) | h)
  · cases hgas : d.gas with
    | none => rw [hgas] at h; simp at h
    | some g =>
      rw [hgas] at h
      simp at h
      rw [h]
      exact Or.inl rfl
  · cases hdm : d.dm with
    | none => rw [hdm] at h; simp at h
    | some m =>
      rw [hdm] at h
      simp at h
      rw [h]
      exact Or.inr (Or.inl rfl)
  · cases hstar : d.star with
    | none => rw [hstar] at h; simp at h
    | some s =>
      rw [hstar] at h
      simp at h
      rw [h]
      exact Or.inr (Or.inr (Or.inl rfl))
  · cases hbh : d.bh with
    | none => rw [hbh] at h; simp at h
    | some b =>
      rw [hbh] at h
      simp at h
      rw [h]
      exact Or.inr (Or.inr (Or.inr rfl))

theorem sum_filter_species (l : List PRow)
    (h : ∀ p ∈ l, p.ptype = "PartType0" ∨ p.ptype = "PartType1" ∨
      p.ptype = "PartType4" ∨ p.ptype = "PartType5") :
    ((l.filter (fun p => p.ptype == "PartType0")).map PRow.mass).sum +
      ((l.filter (fun p => p.ptype == "PartType1")).map PRow.mass).sum +
      ((l.filter (fun p => p.ptype == "PartType4")).map PRow.mass).sum +
      ((l.filter (fun p => p.ptype == "PartType5")).map PRow.mass).sum =
      (l.map PRow.mass).sum := by
  induction l with
  | nil => simp
  | cons a t ih =>
    have iht := ih (fun p hp => h p (List.mem_cons_of_mem a hp))
    rcases h a (List.mem_cons_self a t) with h0 | h1 | h4 | h5
    · simp only [List.filter_cons, h0, List.map_cons, List.sum_cons]
      simp
      linarith
    · simp only [List.filter_cons, h1, List.map_cons, List.sum_cons]
      simp
      linarith
    · simp only [List.filter_cons, h4, List.map_cons, List.sum_cons]
      simp
      linarith
    · simp only [List.filter_cons, h5, List.map_cons, List.sum_cons]
      simp
      linarith

theorem speciesMassIn_partition (cfg : SOConfig) (centre : Vec3) (d : PartData) :
    speciesMassIn cfg centre d "PartType0" + speciesMassIn cfg centre d "PartType1" +
      speciesMassIn cfg centre d "PartType4" + speciesMassIn cfg centre d "PartType5" =
      ((insideRows cfg centre d).map PRow.mass).sum :=
  sum_filter_species (insideRows cfg centre d)
    (fun p hp => mem_allRows_ptype centre d p (List.mem_of_mem_filter hp))

/-- C4 (amended): for every halo input on which `calculate` completes with SO
radius strictly positive, the four reported per-species mass aggregates sum
to the total mass of the particles with radius strictly less than the SO
radius (the `all_selection` set of line 135) — not to the reported SO mass
`mSO`, which also counts the boundary particle at radius exactly `rSO`
(see the counterexample). -/
theorem species_sum_eq_mass_inside (cfg : SOConfig) (centre : Vec3) (d : PartData)
    (g : GasData) (s : StarData) (b : BHData)
    (hg : d.gas = some g) (hs : d.star = some s) (hb : d.bh = some b)
    (ht : cfg.type = "crit" ∨ cfg.type = "mean")
    (h0 : 0 < (soRadiusMass cfg centre d).1) :
    (calcQuants cfg centre d).map (fun o =>
        o.MgasSO.val + o.MdmSO.val + o.MstarSO.val + o.MBHdynSO.val) =
      .ok (((insideRows cfg centre d).map PRow.mass).sum) := by
  rw [calcQuants_cross cfg centre d g s b hg hs hb ht h0]
  exact congrArg Except.ok (speciesMassIn_partition cfg centre d)

/-- C8: for every halo input on which `calculate` completes with SO radius
strictly positive, if no gas particle inside the SO radius has temperature
strictly above 1e5 K, the reported hot-gas mass-weighted temperature is
exactly zero and carries the unit of the input temperature array — even when
the enclosed gas mass is nonzero (the guard of lines 154-160 checks the hot
subset, not the gas mass). -/
theorem calculate_no_hot_gas_zero_temperature (cfg : SOConfig) (centre : Vec3)
    (d : PartData) (hr : ResDict) (g : GasData) (s : StarData) (b : BHData)
    (hg : d.gas = some g) (hs : d.star = some s) (hb : d.bh = some b)
    (ht : cfg.type = "crit" ∨ cfg.type = "mean")
    (h0 : 0 < (soRadiusMass cfg centre d).1)
    (hcool : ∀ t ∈ gasTempsIn cfg centre d g, ¬ 100000 < t) :
    ∃ hr', calculate cfg centre d hr = .ok hr' ∧
      hr'.lookup ("Tgas_" ++ soName cfg) =
        some ⟨.scal ⟨0, g.temperatures.unit⟩,
          "Mass-weighted average temperature of gas with T > 1e5 K within a sphere " ++
            soLabel cfg⟩ := by
  have hq := calcQuants_cross cfg centre d g s b hg hs hb ht h0
  have hnone : (hotSelOf cfg centre d g).any id = false := by
    rw [List.any_eq_false]
    intro x hx
    rw [hotSelOf, List.mem_map] at hx
    obtain ⟨t, htmem, rfl⟩ := hx
    simpa using hcool t htmem
  rw [hnone] at hq
  simp only [Bool.false_eq_true, if_false] at hq
  unfold calculate
  rw [hq]
  refine ⟨_, rfl, ?_⟩
  apply lookup_dictUpdate_of_mem
  exact lookupRes_Tgas _ _ rfl

theorem calcQuants_ok_soname (cfg : SOConfig) (centre : Vec3) (d : PartData)
    (o : CalcOut) (h : calcQuants cfg centre d = .ok o) : o.soname = soName cfg := by
  unfold calcQuants at h
  split at h
  · exact Except.noConfusion h
  · dsimp only at h
    split at h
    · split at h
      · exact Except.noConfusion h
      · split at h
        · split at h
          · exact Except.noConfusion h
          · split at h
            · exact Except.noConfusion h
            · injection h with h
              rw [← h]
        · injection h with h
          rw [← h]
    · exact Except.noConfusion h

theorem mem_resultPairs_key (o : CalcOut) (p : String × ResEntry)
    (hp : p ∈ resultPairs o) : p.1 ∈ resultKeys o.soname := by
  simp only [resultPairs, List.mem_cons, List.not_mem_nil, or_false] at hp
  rcases hp with rfl | rfl | rfl | rfl | rfl | rfl | rfl | rfl | rfl | rfl | rfl |
    rfl | rfl | rfl | rfl
  all_goals simp [resultKeys]

/-- C10: `calculate` extends `halo_result` only at its own fifteen keys
(`r_`, `m_`, `com_`, `vcom_`, `Mgas_`, `Mdm_`, `Mstar_`, `MBHdyn_`,
`Mstarinit_`, `MBHsub_`, `Mhotgas_`, `Tgas_`, `Xraylum_`, `Xrayphlum_`,
`compY_`, suffixed with the configured overdensity name): every key outside
that set looks up the same value after the call as before. -/
theorem calculate_frame (cfg : SOConfig) (centre : Vec3) (d : PartData)
    (hr hr' : ResDict) (k : String)
    (hok : calculate cfg centre d hr = .ok hr')
    (hk : k ∉ resultKeys (soName cfg)) :
    hr'.lookup k = hr.lookup k := by
  unfold calculate at hok
  cases hq : calcQuants cfg centre d with
  | error e =>
    rw [hq] at hok
    exact Except.noConfusion hok
  | ok o =>
    rw [hq] at hok
    injection hok with hok
    rw [← hok]
    have hname : o.soname = soName cfg := calcQuants_ok_soname cfg centre d o hq
    unfold dictUpdate
    rw [List.lookup_append]
    have hnone : (resultPairs o).lookup k = none := by
      rw [List.lookup_eq_none_iff]
      intro p hp
      have hkey : p.1 ∈ resultKeys (soName cfg) := by
        rw [← hname]
        exact mem_resultPairs_key o p hp
      exact bne_iff_ne.mpr (fun he => hk (he ▸ hkey))
    rw [hnone]
    rfl

/- ------------------------------------------------------------------
   Concrete fixtures used by counterexamples and witnesses.
   ------------------------------------------------------------------ -/

/-- The origin, used as halo centre of potential. -/
def zv : Vec3 := (0, 0, 0)

/-- A velocity unit for the fixtures. -/
def velU : SimUnit := ⟨1, 0, -1, 0⟩

/-- Gas table with five unit-mass particles at radii 1..5 Mpc on one axis,
all at temperature 300 K. -/
def gasW : GasData :=
  ⟨⟨[(1, 0, 0), (2, 0, 0), (3, 0, 0), (4, 0, 0), (5, 0, 0)], mpcUnit⟩,
   ⟨[1, 1, 1, 1, 1], msunUnit⟩,
   ⟨[zv, zv, zv, zv, zv], velU⟩,
   ⟨[300, 300, 300, 300, 300], kelvinUnit⟩,
   ⟨[0, 0, 0, 0, 0], ⟨2, 1, -3, 0⟩⟩,
   ⟨[0, 0, 0, 0, 0], ⟨0, 0, -1, 0⟩⟩,
   ⟨[0, 0, 0, 0, 0], ⟨0, 0, 0, 0⟩⟩⟩

/-- A star table that is present but holds no particles. -/
def starE : StarData := ⟨⟨[], mpcUnit⟩, ⟨[], msunUnit⟩, ⟨[], msunUnit⟩, ⟨[], velU⟩⟩

/-- A black hole table that is present but holds no particles. -/
def bhE : BHData := ⟨⟨[], mpcUnit⟩, ⟨[], msunUnit⟩, ⟨[], msunUnit⟩, ⟨[], velU⟩⟩

/-- Gas-only halo data (star and BH keys present with zero particles). -/
def dataW : PartData := ⟨some gasW, none, some starE, some bhE⟩

/-- A "mean" configuration with multiple 200 and mean density `1/10000`,
giving reference density `1/50`, which the density profile of `dataW`
first undercuts at the 4th sorted particle. -/
def cfgW : SOConfig := ⟨"mean", 200, 200, "SO_200_mean", 1, 1 / 10000⟩

/-- One dark matter particle at radius 1 Mpc. -/
def dmW : DMData := ⟨⟨[(1, 0, 0)], mpcUnit⟩, ⟨[1], msunUnit⟩, ⟨[zv], velU⟩⟩

/-- Dark-matter-only input: the gas, star and BH keys are absent, as the
source's own comment (lines 12-16) says happens for DMO runs. -/
def dataDMO : PartData := ⟨none, some dmW, none, none⟩

/-- Gas data with one particle exactly at the halo centre (zero radius,
mass 7) and one at radius 2 (mass 1): the zero-radius particle is dropped
from the profile, its mass is not. -/
def gasZ : GasData :=
  ⟨⟨[(0, 0, 0), (2, 0, 0)], mpcUnit⟩, ⟨[7, 1], msunUnit⟩, ⟨[zv, zv], velU⟩,
   ⟨[300, 300], kelvinUnit⟩, ⟨[0, 0], ⟨2, 1, -3, 0⟩⟩, ⟨[0, 0], ⟨0, 0, -1, 0⟩⟩,
   ⟨[0, 0], ⟨0, 0, 0, 0⟩⟩⟩

/-- Halo data holding only `gasZ`. -/
def dataZ : PartData := ⟨some gasZ, none, none, none⟩

unseal Rat.mul Rat.inv Rat.add Rat.sub in
theorem profile_excludes_zero_radius_witness :
    (0 < (soCumMass zv dataZ).length) ∧
    (soCumMass zv dataZ).getD 0 0 =
      (((sortedRows zv dataZ).map PRow.mass).take (nskipOf zv dataZ)).sum +
        ((((sortedRows zv dataZ).map PRow.mass).drop (nskipOf zv dataZ)).take
          (0 + 1)).sum :=
  ⟨by decide, (profile_excludes_zero_radius zv dataZ).2 0 (by decide)⟩


/-- A "mean" configuration whose reference density (200) is far above every
entry of `dataW`'s density profile, so the threshold is never reached. -/
def cfgZ : SOConfig := ⟨"mean", 200, 200, "SO_200_mean", 1, 1⟩

unseal Rat.mul Rat.inv Rat.add Rat.sub in
theorem calculate_no_crossing_zero_witness :
    (∀ x ∈ soDensity zv dataW, ¬ referenceDensity cfgZ < x) ∧
    (∃ hr', calculate cfgZ zv dataW [] = .ok hr' ∧
      hr'.lookup ("r_" ++ soName cfgZ) =
        some ⟨.scal ⟨0, gasW.coordinates.unit⟩, "Radius " ++ soLabel cfgZ⟩ ∧
      hr'.lookup ("m_" ++ soName cfgZ) =
        some ⟨.scal ⟨0, gasW.masses.unit⟩,
          "Mass within a sphere " ++ soLabel cfgZ⟩) :=
  ⟨by decide,
   calculate_no_crossing_zero cfgZ zv dataW [] gasW rfl (Or.inr rfl) (by decide)⟩

unseal Rat.mul Rat.inv Rat.add Rat.sub in
theorem calculate_first_crossing_witness :
    (∃ i, i < (soDensity zv dataW).length ∧
      (soDensity zv dataW).getD i 0 < referenceDensity cfgW ∧
      (∀ j, j < i → ¬ (soDensity zv dataW).getD j 0 < referenceDensity cfgW) ∧
      ∃ hr', calculate cfgW zv dataW [] = .ok hr' ∧
        hr'.lookup ("r_" ++ soName cfgW) =
          some ⟨.scal ⟨(soOrderedRadius zv dataW).getD i 0, gasW.coordinates.unit⟩,
            "Radius " ++ soLabel cfgW⟩ ∧
        hr'.lookup ("m_" ++ soName cfgW) =
          some ⟨.scal ⟨(soCumMass zv dataW).getD i 0, gasW.masses.unit⟩,
            "Mass within a sphere " ++ soLabel cfgW⟩) ∧
    (calculate cfgW zv dataW []).map (fun hr =>
        ((hr.lookup "r_200_mean").map ResEntry.val,
         (hr.lookup "m_200_mean").map ResEntry.val)) =
      .ok (some (.scal ⟨4, mpcUnit⟩), some (.scal ⟨4, msunUnit⟩)) :=
  ⟨calculate_first_crossing cfgW zv dataW [] gasW starE bhE rfl rfl rfl
    (Or.inr rfl) (by decide) (by decide), by decide⟩

unseal Rat.mul Rat.inv Rat.add Rat.sub in
theorem calculate_no_hot_gas_zero_temperature_witness :
    (∃ hr', calculate cfgW zv dataW [] = .ok hr' ∧
      hr'.lookup ("Tgas_" ++ soName cfgW) =
        some ⟨.scal ⟨0, gasW.temperatures.unit⟩,
          "Mass-weighted average temperature of gas with T > 1e5 K within a sphere " ++
            soLabel cfgW⟩) ∧
    (calcQuants cfgW zv dataW).map (fun o => o.MgasSO.val) = .ok 3 ∧ (3 : ℚ) ≠ 0 :=
  ⟨calculate_no_hot_gas_zero_temperature cfgW zv dataW [] gasW starE bhE rfl rfl rfl
    (Or.inr rfl) (by decide) (by decide), by decide, by decide⟩

/-- A pre-existing `halo_result` entry whose key is none of the fifteen
result keys. -/
def preEntry : ResEntry := ⟨.scal ⟨42, msunUnit⟩, "a pre-existing property"⟩

/-- A `halo_result` dict already holding one foreign entry. -/
def hrPre : ResDict := [("pre", preEntry)]

/-- The dict produced by running `calculate` on `hrPre`. -/
def hrPost : ResDict := (calculate cfgW zv dataW hrPre).toOption.getD []

unseal Rat.mul Rat.inv Rat.add Rat.sub in
theorem calculate_frame_witness :
    calculate cfgW zv dataW hrPre = .ok hrPost ∧
    "pre" ∉ resultKeys (soName cfgW) ∧
    hrPost.lookup "pre" = hrPre.lookup "pre" :=
  ⟨by decide, by decide,
   calculate_frame cfgW zv dataW hrPre hrPost "pre" (by decide) (by decide)⟩

unseal Rat.mul Rat.inv Rat.add Rat.sub in
/-- C1 (code bug): on dark-matter-only input, where the species keys
PartType0/4/5 are legitimately absent from `data` (per the source's own
comment, absent species have no entry), `SOProperties.calculate` does not
treat them as zero particles: line 126 unconditionally evaluates
`data["PartType0"]["Temperatures"]` and raises KeyError, so no result record
is produced. -/
theorem calculate_missing_gas_keyerror :
    calculate cfgW zv dataDMO [] = .error "KeyError: PartType0" := by decide

unseal Rat.mul Rat.inv Rat.add Rat.sub in
theorem species_sum_eq_mass_inside_witness :
    (0 < (soRadiusMass cfgW zv dataW).1) ∧
    (calcQuants cfgW zv dataW).map (fun o =>
        o.MgasSO.val + o.MdmSO.val + o.MstarSO.val + o.MBHdynSO.val) =
      .ok (((insideRows cfgW zv dataW).map PRow.mass).sum) :=
  ⟨by decide,
   species_sum_eq_mass_inside cfgW zv dataW gasW starE bhE rfl rfl rfl
     (Or.inr rfl) (by decide)⟩

unseal Rat.mul Rat.inv Rat.add Rat.sub in
/-- C4 (counterexample): for the gas-only halo `dataW` the reported
per-species masses inside the SO radius sum to 3 (the three particles at
radii 1, 2, 3, strictly inside `rSO = 4`), while the reported SO mass is 4
(`cumulative_mass` at the crossing index also counts the boundary particle
at radius exactly `rSO`), so the claimed equality fails. -/
theorem species_sum_ne_reported_mass :
    (calculate cfgW zv dataW []).map (fun hr =>
      ((hr.lookup "Mgas_200_mean").map ResEntry.val,
       (hr.lookup "Mdm_200_mean").map ResEntry.val,
       (hr.lookup "Mstar_200_mean").map ResEntry.val,
       (hr.lookup "MBHdyn_200_mean").map ResEntry.val,
       (hr.lookup "m_200_mean").map ResEntry.val)) =
      .ok (some (.scal ⟨3, msunUnit⟩), some (.scal ⟨0, msunUnit⟩),
           some (.scal ⟨0, msunUnit⟩), some (.scal ⟨0, msunUnit⟩),
           some (.scal ⟨4, msunUnit⟩)) ∧
    (3 : ℚ) + 0 + 0 + 0 ≠ 4 := by
  constructor
  · decide
  · decide

end SOAP
